import Mathlib

/-!
Verification development for the Brussels EMF-exposure / coverage Monte Carlo
simulation (`verification_sim.py`).

The simulation engine is embedded shallowly over the real numbers:

* the physical constants keep their source names and defining formulas;
* the path-loss function `get_path_loss_attenuation_factor` is a real function;
* a Monte Carlo trial is parametrised by the random draw it consumes: a
  `BaseStationTopology` (the two coordinate arrays produced by
  `np.random.normal`) is an explicit argument, so every per-trial quantity is a
  pure function of the user distance and the topology;
* the distance sweep `run_simulation` takes the whole table of random draws
  (one topology per distance sample and Monte Carlo iteration) as an oracle
  and returns the three result lists of the Python function.
-/

noncomputable section

/-- Source constant: speed of light, `3e8` m/s. -/
def SPEED_OF_LIGHT_METERS_PER_SECOND : ℝ := 3e8

/-- Source constant: carrier frequency, `1837.5e6` Hz. -/
def CARRIER_FREQUENCY_HERTZ : ℝ := 1837.5e6

/-- Source constant: path-loss coefficient `kappa = (4·pi·f / c)^2`. -/
def PATH_LOSS_CONSTANT_KAPPA : ℝ :=
  (4 * Real.pi * CARRIER_FREQUENCY_HERTZ / SPEED_OF_LIGHT_METERS_PER_SECOND) ^ 2

/-- Source constant: transmit power in dBm. -/
def TRANSMIT_POWER_DBM : ℝ := 62.75

/-- Source constant: transmit power in watts, `10^((dBm - 30)/10)`. -/
def TRANSMIT_POWER_WATTS : ℝ := (10 : ℝ) ^ ((TRANSMIT_POWER_DBM - 30) / 10)

/-- Source constant: path-loss exponent `alpha = 3.2`. -/
def PATH_LOSS_EXPONENT_ALPHA : ℝ := 3.2

/-- Source constant: base-station height, 33 m. -/
def BASE_STATION_HEIGHT_METERS : ℝ := 33.0

/-- Source constant: noise floor in dBm. -/
def NOISE_FLOOR_DBM : ℝ := -96.21

/-- Source constant: noise floor in watts, `10^((dBm - 30)/10)`. -/
def NOISE_FLOOR_WATTS : ℝ := (10 : ℝ) ^ ((NOISE_FLOOR_DBM - 30) / 10)

/-- Source constant: advisory simulation radius bound (unused by the engine). -/
def SIMULATION_RADIUS_LIMIT_METERS : ℝ := 7000.0

/-- Source constant: standard deviation of the Gaussian cluster, 1200 m. -/
def CITY_DISTRIBUTION_SPREAD_METERS : ℝ := 1200.0

/-- Source constant: number of base stations per topology draw. -/
def NUMBER_OF_BASE_STATIONS : ℕ := 80

/-- Source constant: number of Monte Carlo iterations per distance sample. -/
def NUMBER_OF_MONTE_CARLO_ITERATIONS : ℕ := 200

/-- `get_path_loss_attenuation_factor`, Equation (4) of the source:
`l = kappa⁻¹ · (r² + h²)^(−α/2)` with `h` the base-station height and `α` the
path-loss exponent (real power). -/
def get_path_loss_attenuation_factor (distance_2d_meters : ℝ) : ℝ :=
  (1.0 / PATH_LOSS_CONSTANT_KAPPA) *
    (distance_2d_meters ^ 2 + BASE_STATION_HEIGHT_METERS ^ 2) ^
      (-PATH_LOSS_EXPONENT_ALPHA / 2.0)

/-- One random topology draw: the two coordinate arrays returned by
`np.random.normal(0, CITY_DISTRIBUTION_SPREAD_METERS, NUMBER_OF_BASE_STATIONS)`. -/
structure BaseStationTopology where
  base_station_x_coordinates : Fin NUMBER_OF_BASE_STATIONS → ℝ
  base_station_y_coordinates : Fin NUMBER_OF_BASE_STATIONS → ℝ

/-- Per-station 2D distance from the user at `(d, 0)`:
`sqrt((x_i − d)² + (y_i − 0)²)`. -/
def distances_2d_meters (d : ℝ) (t : BaseStationTopology)
    (i : Fin NUMBER_OF_BASE_STATIONS) : ℝ :=
  Real.sqrt ((t.base_station_x_coordinates i - d) ^ 2 +
    (t.base_station_y_coordinates i - 0) ^ 2)

/-- Per-station received power `Pr_i = Pt · l(r_i)` (unit gains). -/
def received_powers_watts (d : ℝ) (t : BaseStationTopology)
    (i : Fin NUMBER_OF_BASE_STATIONS) : ℝ :=
  TRANSMIT_POWER_WATTS * get_path_loss_attenuation_factor (distances_2d_meters d t i)

/-- Total received power: `np.sum(received_powers_watts)`. -/
def total_received_power_watts (d : ℝ) (t : BaseStationTopology) : ℝ :=
  ∑ i, received_powers_watts d t i

/-- The universe of station indices is nonempty (80 stations). -/
def bs_univ_nonempty : (Finset.univ : Finset (Fin NUMBER_OF_BASE_STATIONS)).Nonempty :=
  ⟨⟨0, by norm_num [NUMBER_OF_BASE_STATIONS]⟩, Finset.mem_univ _⟩

/-- Strongest single-station received power: `np.max(received_powers_watts)`. -/
def strongest_signal_watts (d : ℝ) (t : BaseStationTopology) : ℝ :=
  Finset.univ.sup' bs_univ_nonempty (received_powers_watts d t)

/-- Interference term: total minus strongest. -/
def interference_watts (d : ℝ) (t : BaseStationTopology) : ℝ :=
  total_received_power_watts d t - strongest_signal_watts d t

/-- Per-trial SINR: `strongest / (interference + noise floor)`. -/
def sinr (d : ℝ) (t : BaseStationTopology) : ℝ :=
  strongest_signal_watts d t / (interference_watts d t + NOISE_FLOOR_WATTS)

/-- Coverage decision of a trial: `sinr > 0.5` (the source's fixed threshold). -/
def coverage_success (d : ℝ) (t : BaseStationTopology) : Prop :=
  sinr d t > 0.5

/-- Per-trial EMF flux density, Equation (8): `S = (kappa / 4·pi) · P_total`. -/
def electromagnetic_flux_density (d : ℝ) (t : BaseStationTopology) : ℝ :=
  (PATH_LOSS_CONSTANT_KAPPA / (4 * Real.pi)) * total_received_power_watts d t

/-- Mean of the 200 per-trial flux samples at one distance
(`np.mean(monte_carlo_flux_samples)`). -/
def mean_emf_flux_density (d : ℝ)
    (trials : Fin NUMBER_OF_MONTE_CARLO_ITERATIONS → BaseStationTopology) : ℝ :=
  (∑ k, electromagnetic_flux_density d (trials k)) / NUMBER_OF_MONTE_CARLO_ITERATIONS

open Classical in
/-- Number of trials at one distance whose SINR clears the threshold
(the counter `monte_carlo_successful_connections`). -/
def monte_carlo_successful_connections (d : ℝ)
    (trials : Fin NUMBER_OF_MONTE_CARLO_ITERATIONS → BaseStationTopology) : ℕ :=
  (Finset.univ.filter fun k => coverage_success d (trials k)).card

/-- Coverage probability at one distance: successes divided by the iteration
count. -/
def coverage_probability (d : ℝ)
    (trials : Fin NUMBER_OF_MONTE_CARLO_ITERATIONS → BaseStationTopology) : ℝ :=
  (monte_carlo_successful_connections d trials : ℝ) / NUMBER_OF_MONTE_CARLO_ITERATIONS

/-- `np.linspace a b n`: `n` evenly spaced points from `a` to `b` inclusive. -/
def linspace (a b : ℝ) (n : ℕ) : List ℝ :=
  (List.range n).map fun i : ℕ => a + (b - a) * (i : ℝ) / ((n : ℝ) - 1)

/-- The sampled user distances: `np.linspace(0, 4000, 50)`. -/
def user_distances_from_center : List ℝ := linspace 0 4000 50

/-- `run_simulation`: for each sampled distance run 200 trials and accumulate
the mean flux and the coverage probability.  The table `draws` supplies the
topology drawn by trial `k` of distance sample `m` (the role played in the
source by the ambient NumPy generator). -/
def run_simulation
    (draws : ℕ → Fin NUMBER_OF_MONTE_CARLO_ITERATIONS → BaseStationTopology) :
    List ℝ × List ℝ × List ℝ :=
  ( user_distances_from_center
  , user_distances_from_center.mapIdx fun m d => mean_emf_flux_density d (draws m)
  , user_distances_from_center.mapIdx fun m d => coverage_probability d (draws m) )

/-! ### Positivity facts about the constants and the per-trial pipeline -/

theorem kappa_pos : 0 < PATH_LOSS_CONSTANT_KAPPA := by
  unfold PATH_LOSS_CONSTANT_KAPPA CARRIER_FREQUENCY_HERTZ SPEED_OF_LIGHT_METERS_PER_SECOND
  positivity

theorem transmit_power_pos : 0 < TRANSMIT_POWER_WATTS :=
  Real.rpow_pos_of_pos (by norm_num) _

theorem noise_floor_pos : 0 < NOISE_FLOOR_WATTS :=
  Real.rpow_pos_of_pos (by norm_num) _

theorem height_pos : 0 < BASE_STATION_HEIGHT_METERS := by
  norm_num [BASE_STATION_HEIGHT_METERS]

theorem distance_3d_squared_pos (r : ℝ) :
    0 < r ^ 2 + BASE_STATION_HEIGHT_METERS ^ 2 := by
  have h := height_pos
  positivity

theorem attenuation_pos (r : ℝ) : 0 < get_path_loss_attenuation_factor r := by
  unfold get_path_loss_attenuation_factor
  have hk : 0 < (1.0 : ℝ) / PATH_LOSS_CONSTANT_KAPPA := by
    have := kappa_pos
    positivity
  exact mul_pos hk (Real.rpow_pos_of_pos (distance_3d_squared_pos _) _)

theorem attenuation_strict_anti {r1 r2 : ℝ} (h1 : 0 ≤ r1) (h12 : r1 < r2) :
    get_path_loss_attenuation_factor r2 < get_path_loss_attenuation_factor r1 := by
  unfold get_path_loss_attenuation_factor
  have hb : r1 ^ 2 + BASE_STATION_HEIGHT_METERS ^ 2 <
      r2 ^ 2 + BASE_STATION_HEIGHT_METERS ^ 2 := by nlinarith
  have hexp : -PATH_LOSS_EXPONENT_ALPHA / 2.0 < 0 := by
    norm_num [PATH_LOSS_EXPONENT_ALPHA]
  have hlt := Real.rpow_lt_rpow_of_neg (distance_3d_squared_pos r1) hb hexp
  have hk : 0 < (1.0 : ℝ) / PATH_LOSS_CONSTANT_KAPPA := by
    have := kappa_pos
    positivity
  exact mul_lt_mul_of_pos_left hlt hk

theorem received_power_pos (d : ℝ) (t : BaseStationTopology)
    (i : Fin NUMBER_OF_BASE_STATIONS) : 0 < received_powers_watts d t i :=
  mul_pos transmit_power_pos (attenuation_pos _)

theorem total_power_nonneg (d : ℝ) (t : BaseStationTopology) :
    0 ≤ total_received_power_watts d t :=
  Finset.sum_nonneg fun i _ => (received_power_pos d t i).le

theorem strongest_pos (d : ℝ) (t : BaseStationTopology) :
    0 < strongest_signal_watts d t := by
  obtain ⟨i, hi⟩ := bs_univ_nonempty
  exact lt_of_lt_of_le (received_power_pos d t i)
    (Finset.le_sup' (received_powers_watts d t) hi)

theorem strongest_le_total (d : ℝ) (t : BaseStationTopology) :
    strongest_signal_watts d t ≤ total_received_power_watts d t :=
  Finset.sup'_le _ _ fun i _ =>
    Finset.single_le_sum (fun j _ => (received_power_pos d t j).le) (Finset.mem_univ i)

theorem interference_nonneg (d : ℝ) (t : BaseStationTopology) :
    0 ≤ interference_watts d t :=
  sub_nonneg.mpr (strongest_le_total d t)

theorem sinr_denominator_pos (d : ℝ) (t : BaseStationTopology) :
    0 < interference_watts d t + NOISE_FLOOR_WATTS :=
  add_pos_of_nonneg_of_pos (interference_nonneg d t) noise_floor_pos

/-! ### Claim theorems -/

/-- C1: for every trial, the coverage decision is computed as
`SINR = Pr_strongest / (Pr_total − Pr_strongest + NoiseFloor_watts)` and the
trial counts as a coverage success iff this SINR is strictly greater than the
threshold `0.5` (linear). -/
theorem coverage_decision_spec (d : ℝ) (t : BaseStationTopology) :
    coverage_success d t ↔
      strongest_signal_watts d t /
          (total_received_power_watts d t - strongest_signal_watts d t +
            NOISE_FLOOR_WATTS) >
        (0.5 : ℝ) :=
  Iff.rfl

/-- C2: `get_path_loss_attenuation_factor r = κ⁻¹ · (r² + h²)^(−α/2)` for every
distance `r`, and at `r = 0` it equals `κ⁻¹ · h^(−α)` exactly. -/
theorem path_loss_formula_and_value_at_zero (r : ℝ) :
    get_path_loss_attenuation_factor r =
      PATH_LOSS_CONSTANT_KAPPA⁻¹ *
        (r ^ 2 + BASE_STATION_HEIGHT_METERS ^ 2) ^ (-PATH_LOSS_EXPONENT_ALPHA / 2) ∧
    get_path_loss_attenuation_factor 0 =
      PATH_LOSS_CONSTANT_KAPPA⁻¹ *
        BASE_STATION_HEIGHT_METERS ^ (-PATH_LOSS_EXPONENT_ALPHA) := by
  constructor
  · unfold get_path_loss_attenuation_factor
    norm_num
  · unfold get_path_loss_attenuation_factor
    have h0 : (0 : ℝ) ^ 2 + BASE_STATION_HEIGHT_METERS ^ 2 =
        BASE_STATION_HEIGHT_METERS ^ 2 := by ring
    have h2 : (BASE_STATION_HEIGHT_METERS ^ 2 : ℝ) ^
        (-PATH_LOSS_EXPONENT_ALPHA / 2.0) =
        BASE_STATION_HEIGHT_METERS ^ (-PATH_LOSS_EXPONENT_ALPHA) := by
      rw [← Real.rpow_natCast BASE_STATION_HEIGHT_METERS 2,
        ← Real.rpow_mul height_pos.le]
      congr 1
      push_cast
      ring
    rw [h0, h2]
    norm_num

theorem flux_nonneg (d : ℝ) (t : BaseStationTopology) :
    0 ≤ electromagnetic_flux_density d t := by
  unfold electromagnetic_flux_density
  have hS : 0 ≤ PATH_LOSS_CONSTANT_KAPPA / (4 * Real.pi) := by
    have h1 := kappa_pos
    have h2 := Real.pi_pos
    positivity
  exact mul_nonneg hS (total_power_nonneg d t)

/-- C3: the per-trial EMF flux density equals `(κ / 4π) · Pr_total`, a linear
rescaling of the total received power, and is always non-negative (it is a
total real-valued function, hence always defined). -/
theorem emf_flux_formula_and_nonneg (d : ℝ) (t : BaseStationTopology) :
    electromagnetic_flux_density d t =
      PATH_LOSS_CONSTANT_KAPPA / (4 * Real.pi) * total_received_power_watts d t ∧
    0 ≤ electromagnetic_flux_density d t :=
  ⟨rfl, flux_nonneg d t⟩

/-- C4: the attenuation factor is strictly positive, strictly decreasing in
distance, and bounded above by its value at zero horizontal distance: for all
`0 ≤ r1 < r2`, `0 < f r2 < f r1 ≤ f 0`. -/
theorem path_loss_positive_strict_decreasing (r1 r2 : ℝ) (h1 : 0 ≤ r1)
    (h12 : r1 < r2) :
    0 < get_path_loss_attenuation_factor r2 ∧
    get_path_loss_attenuation_factor r2 < get_path_loss_attenuation_factor r1 ∧
    get_path_loss_attenuation_factor r1 ≤ get_path_loss_attenuation_factor 0 := by
  refine ⟨attenuation_pos r2, attenuation_strict_anti h1 h12, ?_⟩
  rcases eq_or_lt_of_le h1 with h | h
  · rw [← h]
  · exact (attenuation_strict_anti le_rfl h).le

/-- C4 witness: the conclusion at the concrete pair `r1 = 0`, `r2 = 1`. -/
theorem path_loss_positive_strict_decreasing_witness :
    0 < get_path_loss_attenuation_factor 1 ∧
    get_path_loss_attenuation_factor 1 < get_path_loss_attenuation_factor 0 ∧
    get_path_loss_attenuation_factor 0 ≤ get_path_loss_attenuation_factor 0 :=
  path_loss_positive_strict_decreasing 0 1 le_rfl (by norm_num)

/-- C10: the strongest single-station power never exceeds the total, so the
interference term is non-negative; with the strictly positive noise floor the
SINR denominator is strictly positive, and the SINR is well defined and
non-negative. -/
theorem sinr_well_defined_and_nonneg (d : ℝ) (t : BaseStationTopology) :
    strongest_signal_watts d t ≤ total_received_power_watts d t ∧
    0 ≤ interference_watts d t ∧
    0 < interference_watts d t + NOISE_FLOOR_WATTS ∧
    0 ≤ sinr d t := by
  refine ⟨strongest_le_total d t, interference_nonneg d t,
    sinr_denominator_pos d t, ?_⟩
  exact div_nonneg (strongest_pos d t).le (sinr_denominator_pos d t).le

/-! ### The distance sweep: list-level facts -/

theorem user_distances_length : user_distances_from_center.length = 50 := by
  rw [user_distances_from_center, linspace, List.length_map, List.length_range]

theorem user_distances_getD {m : ℕ} (hm : m < 50) :
    user_distances_from_center.getD m 0 = 4000 * (m : ℝ) / 49 := by
  have hm' : m < user_distances_from_center.length := by
    rw [user_distances_length]
    exact hm
  rw [List.getD_eq_getElem _ _ hm']
  unfold user_distances_from_center linspace
  rw [List.getElem_map, List.getElem_range]
  norm_num

theorem mapIdx_getD {α β : Type} (l : List α) (f : ℕ → α → β) (d : α) (e : β)
    {m : ℕ} (hm : m < l.length) :
    (l.mapIdx f).getD m e = f m (l.getD m d) := by
  have hm' : m < (l.mapIdx f).length := by
    rw [List.length_mapIdx]
    exact hm
  rw [List.getD_eq_getElem _ _ hm', List.getD_eq_getElem _ _ hm]
  have h := List.get_mapIdx l f m hm
  simp only [List.get_eq_getElem] at h
  exact h

theorem successes_le_iterations (d : ℝ)
    (trials : Fin NUMBER_OF_MONTE_CARLO_ITERATIONS → BaseStationTopology) :
    monte_carlo_successful_connections d trials ≤ NUMBER_OF_MONTE_CARLO_ITERATIONS := by
  classical
  unfold monte_carlo_successful_connections
  refine le_trans (Finset.card_filter_le _ _) ?_
  rw [Finset.card_univ, Fintype.card_fin]

theorem run_simulation_distances
    (draws : ℕ → Fin NUMBER_OF_MONTE_CARLO_ITERATIONS → BaseStationTopology) :
    (run_simulation draws).1 = user_distances_from_center := rfl

theorem run_simulation_flux_list
    (draws : ℕ → Fin NUMBER_OF_MONTE_CARLO_ITERATIONS → BaseStationTopology) :
    (run_simulation draws).2.1 =
      user_distances_from_center.mapIdx
        (fun m d => mean_emf_flux_density d (draws m)) := by
  rw [run_simulation]

theorem run_simulation_coverage_list
    (draws : ℕ → Fin NUMBER_OF_MONTE_CARLO_ITERATIONS → BaseStationTopology) :
    (run_simulation draws).2.2 =
      user_distances_from_center.mapIdx
        (fun m d => coverage_probability d (draws m)) := by
  rw [run_simulation]

/-- C5: the sweep returns three index-aligned sequences of length 50, the
distances ascending and evenly spaced from 0 to 4000 m
(`distance m = 4000·m/49`), and for each index the mean-flux entry is the
arithmetic mean of the 200 per-trial flux values while the coverage entry is
the success count divided by 200. -/
theorem run_simulation_sweep_structure
    (draws : ℕ → Fin NUMBER_OF_MONTE_CARLO_ITERATIONS → BaseStationTopology) :
    (run_simulation draws).1.length = 50 ∧
    (run_simulation draws).2.1.length = 50 ∧
    (run_simulation draws).2.2.length = 50 ∧
    (∀ m : ℕ, m < 50 → (run_simulation draws).1.getD m 0 = 4000 * (m : ℝ) / 49) ∧
    (∀ m n : ℕ, m < n → n < 50 →
      (run_simulation draws).1.getD m 0 < (run_simulation draws).1.getD n 0) ∧
    (∀ m : ℕ, m + 1 < 50 →
      (run_simulation draws).1.getD (m + 1) 0 - (run_simulation draws).1.getD m 0 =
        4000 / 49) ∧
    (∀ m : ℕ, m < 50 →
      (run_simulation draws).2.1.getD m 0 =
        (∑ k, electromagnetic_flux_density ((run_simulation draws).1.getD m 0)
          (draws m k)) / NUMBER_OF_MONTE_CARLO_ITERATIONS) ∧
    (∀ m : ℕ, m < 50 →
      (run_simulation draws).2.2.getD m 0 =
        (monte_carlo_successful_connections ((run_simulation draws).1.getD m 0)
          (draws m) : ℝ) / NUMBER_OF_MONTE_CARLO_ITERATIONS) := by
  have hmem : ∀ m : ℕ, m < 50 → m < user_distances_from_center.length := by
    intro m hm
    rw [user_distances_length]
    exact hm
  refine ⟨?_, ?_, ?_, ?_, ?_, ?_, ?_, ?_⟩
  · rw [run_simulation_distances draws, user_distances_length]
  · rw [run_simulation_flux_list draws, List.length_mapIdx, user_distances_length]
  · rw [run_simulation_coverage_list draws, List.length_mapIdx, user_distances_length]
  · intro m hm
    rw [run_simulation_distances draws]
    exact user_distances_getD hm
  · intro m n hmn hn
    rw [run_simulation_distances draws,
      user_distances_getD (hmn.trans hn), user_distances_getD hn]
    have hc : (m : ℝ) < n := Nat.cast_lt.mpr hmn
    have h49 : (0 : ℝ) < 49 := by norm_num
    rw [div_lt_div_iff₀ h49 h49]
    nlinarith
  · intro m hm
    rw [run_simulation_distances draws,
      user_distances_getD hm, user_distances_getD (Nat.lt_of_succ_lt hm)]
    push_cast
    ring
  · intro m hm
    rw [run_simulation_distances draws, run_simulation_flux_list draws,
      mapIdx_getD _ _ 0 _ (hmem m hm)]
    simp only [mean_emf_flux_density]
  · intro m hm
    rw [run_simulation_distances draws, run_simulation_coverage_list draws,
      mapIdx_getD _ _ 0 _ (hmem m hm)]
    simp only [coverage_probability]

/-- The all-at-origin topology, used to instantiate the sweep theorems. -/
def origin_topology : BaseStationTopology :=
  { base_station_x_coordinates := fun _ => 0
    base_station_y_coordinates := fun _ => 0 }

/-- A concrete draw table: every trial draws the origin topology. -/
def constant_draws :
    ℕ → Fin NUMBER_OF_MONTE_CARLO_ITERATIONS → BaseStationTopology :=
  fun _ _ => origin_topology

/-- C5 witness: the sweep facts instantiated at the constant draw table and
the concrete indices 0 and 1. -/
theorem run_simulation_sweep_structure_witness :
    (run_simulation constant_draws).1.getD 1 0 = 4000 * ((1 : ℕ) : ℝ) / 49 ∧
    (run_simulation constant_draws).1.getD 0 0 <
      (run_simulation constant_draws).1.getD 1 0 ∧
    (run_simulation constant_draws).1.getD (0 + 1) 0 -
      (run_simulation constant_draws).1.getD 0 0 = 4000 / 49 ∧
    (run_simulation constant_draws).2.1.getD 0 0 =
      (∑ k, electromagnetic_flux_density
        ((run_simulation constant_draws).1.getD 0 0) (constant_draws 0 k)) /
        NUMBER_OF_MONTE_CARLO_ITERATIONS ∧
    (run_simulation constant_draws).2.2.getD 0 0 =
      (monte_carlo_successful_connections
        ((run_simulation constant_draws).1.getD 0 0) (constant_draws 0) : ℝ) /
        NUMBER_OF_MONTE_CARLO_ITERATIONS := by
  obtain ⟨-, -, -, h4, h5, h6, h7, h8⟩ := run_simulation_sweep_structure constant_draws
  exact ⟨h4 1 (by norm_num), h5 0 1 (by norm_num) (by norm_num), h6 0 (by norm_num),
    h7 0 (by norm_num), h8 0 (by norm_num)⟩

/-- C6: every mean-flux entry of the sweep result is non-negative and every
coverage-probability entry lies in the closed interval `[0, 1]`. -/
theorem sweep_outputs_bounded
    (draws : ℕ → Fin NUMBER_OF_MONTE_CARLO_ITERATIONS → BaseStationTopology)
    (m : ℕ) (hm : m < 50) :
    0 ≤ (run_simulation draws).2.1.getD m 0 ∧
    0 ≤ (run_simulation draws).2.2.getD m 0 ∧
    (run_simulation draws).2.2.getD m 0 ≤ 1 := by
  have hmem : m < user_distances_from_center.length := by
    rw [user_distances_length]
    exact hm
  have h1 : (run_simulation draws).2.1.getD m 0 =
      mean_emf_flux_density (user_distances_from_center.getD m 0) (draws m) := by
    rw [run_simulation_flux_list draws, mapIdx_getD _ _ 0 _ hmem]
  have h2 : (run_simulation draws).2.2.getD m 0 =
      coverage_probability (user_distances_from_center.getD m 0) (draws m) := by
    rw [run_simulation_coverage_list draws, mapIdx_getD _ _ 0 _ hmem]
  rw [h1, h2]
  refine ⟨?_, ?_, ?_⟩
  · unfold mean_emf_flux_density
    apply div_nonneg
    · exact Finset.sum_nonneg fun k _ => flux_nonneg _ _
    · norm_num
  · unfold coverage_probability
    exact div_nonneg (Nat.cast_nonneg _) (Nat.cast_nonneg _)
  · unfold coverage_probability
    rw [div_le_one (by norm_num [NUMBER_OF_MONTE_CARLO_ITERATIONS])]
    exact Nat.cast_le.mpr (successes_le_iterations _ _)

/-- C6 witness: the bounds at the constant draw table and index 0. -/
theorem sweep_outputs_bounded_witness :
    0 ≤ (run_simulation constant_draws).2.1.getD 0 0 ∧
    0 ≤ (run_simulation constant_draws).2.2.getD 0 0 ∧
    (run_simulation constant_draws).2.2.getD 0 0 ≤ 1 :=
  sweep_outputs_bounded constant_draws 0 (by norm_num)

/-! ### The configurable entry point of the spec (§6–§7)

The Python script hard-codes every parameter as a module-level constant and
performs no validation: the configurable operation `run_distance_sweep(config)`
of spec §6 and the `ConfigurationError` of §7 have no counterpart in the
source.  They are modelled here from the spec's words.  Floats' non-finite
values (`inf`, `-inf`) are modelled by the extended reals' `⊤` and `⊥`. -/

/-- Modelled from the spec: the recognized configuration options of
`run_distance_sweep` (§6), missing from the source.  Physical parameters are
extended reals so that non-finiteness is expressible; counts are integers so
that non-positive values are expressible. -/
structure SweepConfig where
  carrier_frequency_hz : EReal
  transmit_power_dbm : EReal
  path_loss_exponent : EReal
  base_station_height_m : EReal
  noise_floor_dbm : EReal
  cluster_spread_m : EReal
  coverage_threshold : EReal
  distance_min : EReal
  distance_max : EReal
  num_base_stations : ℤ
  num_mc_iterations : ℤ
  distance_count : ℤ

/-- Modelled from the spec: a required physical parameter is admissible only
when finite. -/
def isFiniteParam (x : EReal) : Prop := x ≠ ⊤ ∧ x ≠ ⊥

/-- Modelled from the spec (§7): the configuration invariant that must hold
before any simulation work. -/
def validConfig (c : SweepConfig) : Prop :=
  0 < c.num_base_stations ∧ 0 < c.num_mc_iterations ∧ 0 < c.distance_count ∧
  isFiniteParam c.carrier_frequency_hz ∧ isFiniteParam c.transmit_power_dbm ∧
  isFiniteParam c.path_loss_exponent ∧ isFiniteParam c.base_station_height_m ∧
  isFiniteParam c.noise_floor_dbm ∧ isFiniteParam c.cluster_spread_m ∧
  isFiniteParam c.coverage_threshold ∧ isFiniteParam c.distance_min ∧
  isFiniteParam c.distance_max

/-- Modelled from the spec: the fatal error of §7. -/
inductive ConfigurationError where
  | invalidConfiguration : ConfigurationError

/-- Modelled from the spec (§4.2): the attenuation factor with configurable
`κ`, `α` and height. -/
def config_attenuation (kappa alpha hgt r : ℝ) : ℝ :=
  kappa⁻¹ * (r ^ 2 + hgt ^ 2) ^ (-alpha / 2)

open Classical in
/-- Modelled from the spec (§4.3–§4.6, §6): the generalized distance sweep run
after validation, with the same formulas as the source engine but every
parameter taken from the configuration.  `draws m k` supplies the x- and
y-coordinate streams of trial `k` at distance sample `m`. -/
def config_sweep (c : SweepConfig) (hN : 0 < c.num_base_stations)
    (draws : ℕ → ℕ → (ℕ → ℝ) × (ℕ → ℝ)) : List ℝ × List ℝ × List ℝ :=
  let N : ℕ := c.num_base_stations.toNat
  let K : ℕ := c.num_mc_iterations.toNat
  let kappa : ℝ := (4 * Real.pi * c.carrier_frequency_hz.toReal /
    SPEED_OF_LIGHT_METERS_PER_SECOND) ^ 2
  let pt : ℝ := (10 : ℝ) ^ ((c.transmit_power_dbm.toReal - 30) / 10)
  let noise : ℝ := (10 : ℝ) ^ ((c.noise_floor_dbm.toReal - 30) / 10)
  let distances : List ℝ :=
    linspace c.distance_min.toReal c.distance_max.toReal c.distance_count.toNat
  let powers : ℝ → ℕ → ℕ → Fin N → ℝ := fun d m k i =>
    pt * config_attenuation kappa c.path_loss_exponent.toReal
      c.base_station_height_m.toReal
      (Real.sqrt (((draws m k).1 i - d) ^ 2 + ((draws m k).2 i) ^ 2))
  let total : ℝ → ℕ → ℕ → ℝ := fun d m k => ∑ i, powers d m k i
  let strongest : ℝ → ℕ → ℕ → ℝ := fun d m k =>
    Finset.univ.sup' ⟨⟨0, by omega⟩, Finset.mem_univ _⟩ (powers d m k)
  let trial_sinr : ℝ → ℕ → ℕ → ℝ := fun d m k =>
    strongest d m k / (total d m k - strongest d m k + noise)
  ( distances
  , distances.mapIdx fun m d =>
      (∑ k ∈ Finset.range K, kappa / (4 * Real.pi) * total d m k) / K
  , distances.mapIdx fun m d =>
      (((Finset.range K).filter fun k =>
        c.coverage_threshold.toReal < trial_sinr d m k).card : ℝ) / K )

open Classical in
/-- Modelled from the spec (§6–§7): the engine's entry point validates the
configuration and fails with a `ConfigurationError` before any simulation work
when it is invalid. -/
def run_distance_sweep (c : SweepConfig)
    (draws : ℕ → ℕ → (ℕ → ℝ) × (ℕ → ℝ)) :
    Except ConfigurationError (List ℝ × List ℝ × List ℝ) :=
  if h : validConfig c then .ok (config_sweep c h.1 draws)
  else .error ConfigurationError.invalidConfiguration

/-- C7: if `num_base_stations ≤ 0`, `num_mc_iterations ≤ 0`,
`distance_range.count ≤ 0`, or any required physical parameter is non-finite,
`run_distance_sweep` returns a `ConfigurationError` before any simulation work
begins, and no (partial) result is produced. -/
theorem config_error_before_work (c : SweepConfig)
    (draws : ℕ → ℕ → (ℕ → ℝ) × (ℕ → ℝ))
    (hbad : c.num_base_stations ≤ 0 ∨ c.num_mc_iterations ≤ 0 ∨
      c.distance_count ≤ 0 ∨ ¬ isFiniteParam c.carrier_frequency_hz ∨
      ¬ isFiniteParam c.transmit_power_dbm ∨
      ¬ isFiniteParam c.path_loss_exponent ∨
      ¬ isFiniteParam c.base_station_height_m ∨
      ¬ isFiniteParam c.noise_floor_dbm ∨
      ¬ isFiniteParam c.cluster_spread_m ∨
      ¬ isFiniteParam c.coverage_threshold ∨
      ¬ isFiniteParam c.distance_min ∨
      ¬ isFiniteParam c.distance_max) :
    run_distance_sweep c draws = .error ConfigurationError.invalidConfiguration ∧
    ∀ out, run_distance_sweep c draws ≠ .ok out := by
  classical
  have hnv : ¬ validConfig c := by
    intro hv
    obtain ⟨h1, h2, h3, h4, h5, h6, h7, h8, h9, h10, h11, h12⟩ := hv
    rcases hbad with h | h | h | h | h | h | h | h | h | h | h | h
    · omega
    · omega
    · omega
    · exact h h4
    · exact h h5
    · exact h h6
    · exact h h7
    · exact h h8
    · exact h h9
    · exact h h10
    · exact h h11
    · exact h h12
  have herr : run_distance_sweep c draws =
      .error ConfigurationError.invalidConfiguration := by
    unfold run_distance_sweep
    rw [dif_neg hnv]
  refine ⟨herr, ?_⟩
  intro out hout
  rw [herr] at hout
  exact Except.noConfusion hout

/-- A concrete invalid configuration: zero base stations, every other option
admissible. -/
def zero_station_config : SweepConfig :=
  { carrier_frequency_hz := ((1837500000 : ℝ) : EReal)
    transmit_power_dbm := ((62.75 : ℝ) : EReal)
    path_loss_exponent := ((3.2 : ℝ) : EReal)
    base_station_height_m := ((33 : ℝ) : EReal)
    noise_floor_dbm := ((-96.21 : ℝ) : EReal)
    cluster_spread_m := ((1200 : ℝ) : EReal)
    coverage_threshold := ((0.5 : ℝ) : EReal)
    distance_min := ((0 : ℝ) : EReal)
    distance_max := ((4000 : ℝ) : EReal)
    num_base_stations := 0
    num_mc_iterations := 200
    distance_count := 50 }

/-- C7 witness: the invalid configuration with zero base stations is rejected
with a `ConfigurationError` and yields no result. -/
theorem config_error_before_work_witness :
    run_distance_sweep zero_station_config (fun _ _ => (fun _ => 0, fun _ => 0)) =
      .error ConfigurationError.invalidConfiguration ∧
    ∀ out, run_distance_sweep zero_station_config
      (fun _ _ => (fun _ => 0, fun _ => 0)) ≠ .ok out :=
  config_error_before_work zero_station_config _ (Or.inl (le_refl 0))

/-! ### The seeded topology sampler of the spec (§4.3) -/

/-- Modelled from the spec (§4.3): the script samples coordinates from NumPy's
ambient global generator and exposes no seed ("seeded only implicitly by the
ambient random source"); the sampler required for reproducible testing is
modelled as a pure function of an explicit seed.  `normal_stream seed j` is
the `j`-th standard normal variate of the stream determined by `seed`; the
sampler scales it by the configured spread, consuming the `N` x-coordinates
first and the `N` y-coordinates next, as the two `np.random.normal` calls do. -/
def sample_topology (normal_stream : ℕ → ℕ → ℝ) (seed : ℕ) : BaseStationTopology :=
  { base_station_x_coordinates := fun i =>
      CITY_DISTRIBUTION_SPREAD_METERS * normal_stream seed i
    base_station_y_coordinates := fun i =>
      CITY_DISTRIBUTION_SPREAD_METERS * normal_stream seed
        (NUMBER_OF_BASE_STATIONS + i) }

/-- C9: for a fixed seed and identical configuration, two invocations of the
seed-accepting topology sampler produce bit-identical station coordinates. -/
theorem sampler_deterministic (normal_stream : ℕ → ℕ → ℝ) (seed1 seed2 : ℕ)
    (h : seed1 = seed2) (i : Fin NUMBER_OF_BASE_STATIONS) :
    (sample_topology normal_stream seed1).base_station_x_coordinates i =
      (sample_topology normal_stream seed2).base_station_x_coordinates i ∧
    (sample_topology normal_stream seed1).base_station_y_coordinates i =
      (sample_topology normal_stream seed2).base_station_y_coordinates i := by
  subst h
  exact ⟨rfl, rfl⟩

/-- Station index 0, used to instantiate coordinatewise statements. -/
def station0 : Fin NUMBER_OF_BASE_STATIONS :=
  ⟨0, by norm_num [NUMBER_OF_BASE_STATIONS]⟩

/-- C9 witness: determinism at the zero stream, seed 7 and station 0. -/
theorem sampler_deterministic_witness :
    (sample_topology (fun _ _ => 0) 7).base_station_x_coordinates station0 =
      (sample_topology (fun _ _ => 0) 7).base_station_x_coordinates station0 ∧
    (sample_topology (fun _ _ => 0) 7).base_station_y_coordinates station0 =
      (sample_topology (fun _ _ => 0) 7).base_station_y_coordinates station0 :=
  sampler_deterministic (fun _ _ => 0) 7 7 rfl station0
